import Mathlib

/-! Note-Summarizer: a verification development.

Shallow embedding of `server.js` (the two Express handlers `POST /summarize` and
`POST /send-email`, and the start-up routine `initializeEmailTransporter`) and of
the React component `src/components/Demo.jsx` (its `useState` cells and the two
handlers `handleSubmit` and `handleDoneEditing`).

Conventions of the embedding.

* A parsed JSON document is a `Json`.  A JavaScript value that was read from a
  property is an `Option Json`, where `none` is `undefined`.
* A JavaScript exception is `Except.error msg`, `msg` being the `message` of the
  thrown error.  `try`/`catch` is a `match` on the `Except`.
* Code outside the repository (the `fetch` runtime, the `nodemailer` library, the
  clock) is a parameter of the handler that uses it; of the `nodemailer` module
  only the names of its exports are fixed.  Every call a handler makes to such
  code is recorded in a trace that is returned next to the response.
* A response body is the document that `res.json` writes: `JSON.stringify`
  leaves out a property that is `undefined` and writes `null` for a number that
  is not finite.
-/

namespace NoteSummarizer

/-! ## JavaScript values -/

/-- A JavaScript number as far as the handlers observe it: whether it is zero
(its truthiness; `JSON.parse` never yields `NaN`), whether it is finite
(`JSON.parse` yields `Infinity` for a literal such as `1e999`), and its
`ToString` rendering. -/
structure JSNumber where
  isZero : Bool
  finite : Bool
  text : String
deriving DecidableEq, Repr

/-- A parsed JSON document.  An `obj` lists the own properties of the object in
enumeration order, every key once. -/
inductive Json where
  | null
  | bool (b : Bool)
  | num (n : JSNumber)
  | str (s : String)
  | arr (items : List Json)
  | obj (fields : List (String × Json))

/-- A JavaScript value: `none` is `undefined`. -/
abbrev JSValue := Option Json

/-- JavaScript `ToBoolean`, as used by `!x`, `x || y`, `x && y` and `x ? a : b`. -/
def truthy : JSValue → Bool
  | none => false
  | some .null => false
  | some (.bool b) => b
  | some (.num n) => !n.isZero
  | some (.str s) => !s.toList.isEmpty
  | some (.arr _) => true
  | some (.obj _) => true

/-- Own-property lookup in an object literal or parsed object. -/
def lookupField (fields : List (String × Json)) (key : String) : JSValue :=
  match fields with
  | [] => none
  | (k, v) :: rest => if k = key then some v else lookupField rest key

/-- The message of the `TypeError` raised by a property read on `undefined` or `null`. -/
def nullishReadMessage (key : String) : String :=
  "Cannot read properties of undefined (reading " ++ key ++ ")"

/-- Property read `v.key` for a key that no prototype defines (all keys read by
the handlers are such): it throws on `undefined` and `null`, finds own properties
of objects and yields `undefined` on every other value. -/
def getProp (v : JSValue) (key : String) : Except String JSValue :=
  match v with
  | none => .error (nullishReadMessage key)
  | some .null => .error (nullishReadMessage key)
  | some (.obj fields) => .ok (lookupField fields key)
  | some _ => .ok none

/-- Indexed read `v[0]`: the first element of an array, the first character of a
string, the property `"0"` of an object; it throws on `undefined` and `null`. -/
def getIndex0 (v : JSValue) : Except String JSValue :=
  match v with
  | none => .error (nullishReadMessage "0")
  | some .null => .error (nullishReadMessage "0")
  | some (.arr items) => .ok items.head?
  | some (.str s) =>
      match s.toList with
      | [] => .ok none
      | c :: _ => .ok (some (.str (String.mk [c])))
  | some (.obj fields) => .ok (lookupField fields "0")
  | some _ => .ok none

/-- Optional chaining `v?.key`: `undefined` when `v` is `undefined` or `null`. -/
def optChain (v : JSValue) (key : String) : JSValue :=
  match v with
  | none => none
  | some .null => none
  | some (.obj fields) => lookupField fields key
  | some _ => none

/-- The message of the `TypeError` raised when an object has no usable
`toString`/`valueOf`. -/
def toPrimitiveMessage : String := "Cannot convert object to primitive value"

/-- Whether a parsed object shadows `Object.prototype.toString` with an own
property (which, coming from JSON, is not callable). -/
def shadowsToString (fields : List (String × Json)) : Bool :=
  fields.any (fun kv => kv.1 = "toString")

mutual
/-- JavaScript `ToString` on a JSON value, as performed by a template literal
and by `RegExp.prototype.test`.  An array is joined with `","`; a plain object
renders as `[object Object]`; an object that shadows `toString` makes the
conversion throw. -/
def Json.toJSString : Json → Except String String
  | .null => .ok "null"
  | .bool b => .ok (if b then "true" else "false")
  | .num n => .ok n.text
  | .str s => .ok s
  | .arr items => Json.joinItems items
  | .obj fields =>
      if shadowsToString fields then .error toPrimitiveMessage else .ok "[object Object]"
/-- The work of `Array.prototype.join` with the default separator. -/
def Json.joinItems : List Json → Except String String
  | [] => .ok ""
  | [x] => Json.itemString x
  | x :: y :: rest =>
      match Json.itemString x with
      | .error e => .error e
      | .ok a =>
          match Json.joinItems (y :: rest) with
          | .error e => .error e
          | .ok b => .ok (a ++ "," ++ b)
/-- The rendering of one array element by `join`: `null` renders empty. -/
def Json.itemString : Json → Except String String
  | .null => .ok ""
  | .bool b => .ok (if b then "true" else "false")
  | .num n => .ok n.text
  | .str s => .ok s
  | .arr items => Json.joinItems items
  | .obj fields =>
      if shadowsToString fields then .error toPrimitiveMessage else .ok "[object Object]"
end

/-- JavaScript `ToString` on a value. -/
def toJSString : JSValue → Except String String
  | none => .ok "undefined"
  | some j => j.toJSString

/-- An HTTP response written by a handler: `res.status(s).json(b)`;
`res.json(b)` alone has status 200. -/
structure Response where
  status : Nat
  body : Json

mutual
/-- The document that `JSON.stringify` writes for a parsed JSON value: a number
that is not finite is written as `null`, at every depth; everything else is
written as it is. -/
def Json.wire : Json → Json
  | .null => .null
  | .bool b => .bool b
  | .num n => if n.finite then .num n else .null
  | .str s => .str s
  | .arr items => .arr (Json.wireItems items)
  | .obj fields => .obj (Json.wireFields fields)
/-- The elements of an array, as written. -/
def Json.wireItems : List Json → List Json
  | [] => []
  | x :: rest => Json.wire x :: Json.wireItems rest
/-- The properties of an object, as written. -/
def Json.wireFields : List (String × Json) → List (String × Json)
  | [] => []
  | (k, v) :: rest => (k, Json.wire v) :: Json.wireFields rest
end

/-- The body that `res.json` sends for an object literal: a property whose value
is `undefined` is left out, and each value is written by `JSON.stringify`. -/
def jsonObject (props : List (String × JSValue)) : Json :=
  .obj (props.filterMap (fun kv => kv.2.map (fun v => (kv.1, v.wire))))

/-! ## `POST /summarize` (server.js, lines 102-178) -/

/-- One entry of the `messages` array. -/
structure ChatMessage where
  role : String
  content : String
deriving DecidableEq, Repr

/-- The object passed to `JSON.stringify` as the body of the outbound call. -/
structure CompletionRequest where
  model : String
  messages : List ChatMessage
  max_tokens : Nat
  temperature : ℚ
deriving DecidableEq

/-- The arguments of the `fetch` call. -/
structure OutboundRequest where
  url : String
  method : String
  authorization : String
  contentType : String
  body : CompletionRequest
deriving DecidableEq

/-- What the `fetch` call can do: reject (network failure), or resolve with a
response that has an `ok` flag, a status, and a body that `response.json()`
either parses (`some`) or rejects (`none`). -/
inductive FetchOutcome where
  | rejected (message : String)
  | responded (ok : Bool) (status : Nat) (json : Option Json)

def GROQ_API_URL : String := "https://api.groq.com/openai/v1/chat/completions"

def defaultPrompt : String :=
  "Summarize the following meeting transcript in a clear, organized manner. Include key points, decisions made, and action items if any."

def systemInstruction : String :=
  "You are a helpful assistant that specializes in summarizing meeting transcripts and notes. Provide clear, well-structured summaries."

/-- Line 117: `prompt || defaultPrompt`. -/
def finalPrompt (prompt : JSValue) : JSValue :=
  if truthy prompt then prompt else some (.str defaultPrompt)

/-- Line 128: the template literal of the user message. -/
def userContent (prompt transcript : JSValue) : Except String String :=
  match toJSString (finalPrompt prompt) with
  | .error e => .error e
  | .ok p =>
      match toJSString transcript with
      | .error e => .error e
      | .ok t => .ok (p ++ "\n\nTranscript:\n" ++ t)

/-- Lines 120-145: the argument of `fetch`. -/
def buildRequest (apiKey : String) (prompt transcript : JSValue) :
    Except String OutboundRequest :=
  match userContent prompt transcript with
  | .error e => .error e
  | .ok content =>
      .ok { url := GROQ_API_URL
            method := "POST"
            authorization := "Bearer " ++ apiKey
            contentType := "application/json"
            body :=
              { model := "llama3-8b-8192"
                messages := [⟨"system", systemInstruction⟩, ⟨"user", content⟩]
                max_tokens := 1000
                temperature := 3 / 10 } }

/-- Line 167: `data.choices[0]?.message?.content`. -/
def extractSummary (data : JSValue) : Except String JSValue :=
  match getProp data "choices" with
  | .error e => .error e
  | .ok choices =>
      match getIndex0 choices with
      | .error e => .error e
      | .ok first => .ok (optChain (optChain first "message") "content")

/-- The message of the error with which `response.json()` rejects. -/
def jsonParseMessage : String := "Unexpected token in JSON"

/-- Lines 147-173: what the handler does with the outcome of `fetch`. -/
def afterFetch (outcome : FetchOutcome) : Except String Response :=
  match outcome with
  | .rejected message => .error message
  | .responded false _ none => .error jsonParseMessage
  | .responded false _ (some errorData) =>
      .ok ⟨500, jsonObject [("error", some (.str "Failed to generate summary from GROQ API")),
                            ("details", some errorData)]⟩
  | .responded true _ none => .error jsonParseMessage
  | .responded true _ (some data) =>
      match extractSummary (some data) with
      | .error e => .error e
      | .ok summary =>
          if truthy summary then .ok ⟨200, jsonObject [("summary", summary)]⟩
          else .ok ⟨500, jsonObject [("error", some (.str "No summary generated"))]⟩

/-- The body of the `try` block of the handler, with the list of outbound
requests it issued. -/
def summarizeTry (apiKey : String) (fetch : OutboundRequest → FetchOutcome)
    (body : JSValue) : Except String Response × List OutboundRequest :=
  match getProp body "transcript", getProp body "prompt" with
  | .error e, _ => (.error e, [])
  | _, .error e => (.error e, [])
  | .ok transcript, .ok prompt =>
      if truthy transcript then
        match buildRequest apiKey prompt transcript with
        | .error e => (.error e, [])
        | .ok request => (afterFetch (fetch request), [request])
      else (.ok ⟨400, jsonObject [("error", some (.str "Transcript is required"))]⟩, [])

/-- The handler of `POST /summarize`: the response it writes and the outbound
requests it issued.  The `catch` maps every exception to the generic 500. -/
def summarize (apiKey : String) (fetch : OutboundRequest → FetchOutcome)
    (body : JSValue) : Response × List OutboundRequest :=
  match summarizeTry apiKey fetch body with
  | (.ok response, sent) => (response, sent)
  | (.error _, sent) => (⟨500, jsonObject [("error", some (.str "Internal server error"))]⟩, sent)

/-! ## The address pattern (server.js line 193, Demo.jsx line 50) -/

/-- Regular expressions, as far as the pattern of the source needs them. -/
inductive RE where
  | empty
  | eps
  | cls (p : Char → Bool)
  | seq (a b : RE)
  | alt (a b : RE)
  | star (a : RE)

namespace RE

/-- The quantifier `+`: one or more. -/
def plus (a : RE) : RE := seq a (star a)

/-- Whether the expression accepts the empty string. -/
def nullable : RE → Bool
  | empty => false
  | eps => true
  | cls _ => false
  | seq a b => a.nullable && b.nullable
  | alt a b => a.nullable || b.nullable
  | star _ => true

/-- The expression that accepts what is left after reading `c`. -/
def deriv (c : Char) : RE → RE
  | empty => empty
  | eps => empty
  | cls p => if p c then eps else empty
  | seq a b => if a.nullable then alt (seq (a.deriv c) b) (b.deriv c) else seq (a.deriv c) b
  | alt a b => alt (a.deriv c) (b.deriv c)
  | star a => seq (a.deriv c) (star a)

/-- Whole-input matching, by reading the input one character at a time. -/
def matchList : RE → List Char → Bool
  | r, [] => r.nullable
  | r, c :: cs => matchList (r.deriv c) cs

/-- The strings an expression denotes. -/
inductive Matches : RE → List Char → Prop where
  | eps : Matches eps []
  | cls (p : Char → Bool) (c : Char) : p c = true → Matches (cls p) [c]
  | seq (a b : RE) (u v : List Char) : Matches a u → Matches b v → Matches (seq a b) (u ++ v)
  | altLeft (a b : RE) (u : List Char) : Matches a u → Matches (alt a b) u
  | altRight (a b : RE) (u : List Char) : Matches b u → Matches (alt a b) u
  | starNil (a : RE) : Matches (star a) []
  | starCons (a : RE) (u v : List Char) :
      Matches a u → Matches (star a) v → Matches (star a) (u ++ v)

end RE

/-- The class `\s` of ECMAScript: white space and line terminators. -/
def isJsWhitespace (c : Char) : Bool :=
  let n := c.toNat
  n == 0x09 || n == 0x0A || n == 0x0B || n == 0x0C || n == 0x0D || n == 0x20 ||
  n == 0xA0 || n == 0x1680 || (0x2000 ≤ n && n ≤ 0x200A) || n == 0x2028 ||
  n == 0x2029 || n == 0x202F || n == 0x205F || n == 0x3000 || n == 0xFEFF

/-- The class `[^\s@]`. -/
def notSpaceOrAt (c : Char) : Bool := !isJsWhitespace c && !(c == '@')

/-- The literal `/^[^\s@]+@[^\s@]+\.[^\s@]+$/`; the anchors `^` and `$` make it
a whole-input pattern. -/
def emailRegex : RE :=
  .seq (.plus (.cls notSpaceOrAt))
    (.seq (.cls (fun c => c == '@'))
      (.seq (.plus (.cls notSpaceOrAt))
        (.seq (.cls (fun c => c == '.'))
          (.plus (.cls notSpaceOrAt)))))

/-- The call `emailRegex.test(s)` on a string.  A character outside the basic
plane is two code units for the engine, both in `[^\s@]`, and `+` reads any
number of them, so reading by character gives the same answer. -/
def regexTest (r : RE) (s : String) : Bool := r.matchList s.toList

/-- The address format in the words of the specification: no whitespace,
exactly one `@`, a non-empty local part before it, and after it a domain that
contains a `.` with a character before it and a character after it. -/
def wellFormedAddress (s : List Char) : Prop :=
  (∀ c ∈ s, isJsWhitespace c = false) ∧
  s.count '@' = 1 ∧
  ∃ loc dom, s = loc ++ '@' :: dom ∧ loc ≠ [] ∧
    ∃ u v, dom = u ++ '.' :: v ∧ u ≠ [] ∧ v ≠ []

/-! ## The mail transport (server.js, lines 25-99) -/

def DEVELOPER_EMAIL : String := "ayushrana03dec2003@gmail.com"

/-- The object handed to `sendMail` (lines 208-227); `sender` is its `from` and
`recipient` its `to`. -/
structure MailOptions where
  sender : String
  recipient : JSValue
  subject : JSValue
  text : JSValue
  html : String

/-- The object with which `sendMail` resolves. -/
structure SendInfo where
  messageId : JSValue
  response : JSValue
  envelope : Option (String × List JSValue)

/-- The two things `emailTransporter` can hold once it is assigned: the handle
made by the mail library, or the object literal of lines 68-90. -/
inductive Transport where
  | live
  | simulation
deriving DecidableEq, Repr

/-- The code outside the repository that the mail path calls: the clock, the
`sendMail` of the library handle, and the preview lookup of the library. -/
structure MailEnv where
  now : Nat
  liveSendMail : MailOptions → Except String SendInfo
  getTestMessageUrl : SendInfo → Except String JSValue

/-- The message of the `TypeError` raised when `.substring` is called on a value
that has no such method. -/
def substringMessage : String := "mailOptions.text.substring is not a function"

/-- Lines 69-89: `sendMail` of the simulation transport.  Line 77 calls
`mailOptions.text.substring(0, 200)`, which only a string supports. -/
def simulationSendMail (now : Nat) (mailOptions : MailOptions) : Except String SendInfo :=
  match mailOptions.text with
  | none => .error (nullishReadMessage "substring")
  | some .null => .error (nullishReadMessage "substring")
  | some (.str _) =>
      .ok { messageId := some (.str ("simulated-" ++ toString now ++ "@notesummarizer.com"))
            response := some (.str "250 Message accepted for delivery (simulated)")
            envelope := some (DEVELOPER_EMAIL, [mailOptions.recipient]) }
  | some _ => .error substringMessage

/-- Where `initializeEmailTransporter` stands. -/
inductive InitPhase where
  | notStarted
  | verifying
  | finished
deriving DecidableEq, Repr

/-- The module variable `emailTransporter` (line 33) and the progress of the
start-up routine. -/
structure MailState where
  emailTransporter : Option Transport
  phase : InitPhase
deriving DecidableEq, Repr

/-- The state when the module has been loaded: `let emailTransporter;`. -/
def MailState.initial : MailState := ⟨none, .notStarted⟩

/-- The functions that the `nodemailer` module exports.  The factory is
`createTransport`; the module has no export named `createTransporter`. -/
def nodemailerExports : List String :=
  ["createTransport", "createTestAccount", "getTestMessageUrl"]

/-- The call `nodemailer.name(...)` of a factory: a name that the module does
not export reads as `undefined`, and calling it throws a `TypeError`; otherwise
the factory of the library runs. -/
def callNodemailer (name : String) (factory : Except String Unit) : Except String Unit :=
  if name ∈ nodemailerExports then factory
  else .error ("nodemailer." ++ name ++ " is not a function")

/-- Lines 37-58, from the call up to the `await`: line 49 calls
`nodemailer.createTransporter`; if that returns a handle, the handle is stored
and the routine waits for `verify()`; if it throws, the `catch` of line 62 runs
and lines 68-95 store the simulation.  `factory` is what the factory of the
library would do with the configured credentials. -/
def initializeEmailTransporter (factory : Except String Unit)
    (_s : MailState) : MailState :=
  match callNodemailer "createTransporter" factory with
  | .ok () => ⟨some .live, .verifying⟩
  | .error _ => ⟨some .simulation, .finished⟩

/-- Lines 58-95, from the moment `verify()` settles: on success the routine
returns (line 61); on failure lines 68-95 store the simulation. -/
def verifySettled (verify : Except String Unit) (s : MailState) : MailState :=
  match s.phase with
  | .verifying =>
      match verify with
      | .ok () => ⟨s.emailTransporter, .finished⟩
      | .error _ => ⟨some .simulation, .finished⟩
  | _ => s

/-- Line 273: the start-up of the mail transport, from the call of
`initializeEmailTransporter` to its completion; `verify` is how the verification
of the connection would settle. -/
def startUp (factory verify : Except String Unit) : MailState :=
  verifySettled verify (initializeEmailTransporter factory MailState.initial)

/-! ## `POST /send-email` (server.js, lines 181-257) -/

/-- A call the handler makes to code outside itself. -/
inductive MailEvent where
  | sendMail (transport : Transport) (mailOptions : MailOptions)
  | previewLookup (info : SendInfo)

def htmlHead : String :=
  "\n        <div style=\"font-family: Arial, sans-serif; max-width: 600px; margin: 0 auto;\">\n          <h2 style=\"color: #333; border-bottom: 2px solid #007bff; padding-bottom: 10px;\">\n            📝 Meeting Summary\n          </h2>\n          <div style=\"background-color: #f8f9fa; padding: 20px; border-radius: 5px; margin: 20px 0;\">\n            <pre style=\"white-space: pre-wrap; font-family: Arial, sans-serif; line-height: 1.6;\">"

def htmlMiddle : String :=
  "</pre>\n          </div>\n          <p style=\"color: #666; font-size: 12px; margin-top: 30px;\">\n            This summary was generated using AI-powered Note Summarizer<br>\n            Sent from: "

def htmlTail : String := "\n          </p>\n        </div>\n      "

/-- Lines 208-227: the object literal `mailOptions`; the template literal of
`html` converts `summary` to a string. -/
def buildMailOptions (email subject summary : JSValue) : Except String MailOptions :=
  match toJSString summary with
  | .error e => .error e
  | .ok rendered =>
      .ok { sender := "\"AI Note Summarizer\" <" ++ DEVELOPER_EMAIL ++ ">"
            recipient := email
            subject := subject
            text := summary
            html := htmlHead ++ rendered ++ htmlMiddle ++ DEVELOPER_EMAIL ++ htmlTail }

/-- The dispatch `emailTransporter.sendMail(mailOptions)`. -/
def transportSendMail (env : MailEnv) (transport : Transport) (mailOptions : MailOptions) :
    Except String SendInfo :=
  match transport with
  | .live => env.liveSendMail mailOptions
  | .simulation => simulationSendMail env.now mailOptions

/-- Lines 234-242: the preview link, with the lookups made.  The lookup is
skipped when the message id is falsy or starts with `mock-`; an exception inside
the inner `try` (a message id without `startsWith`, a throwing lookup) leaves
`null`. -/
def previewUrlOf (env : MailEnv) (info : SendInfo) : JSValue × List MailEvent :=
  match info.messageId with
  | some (.str id) =>
      if id.toList.isEmpty then (some .null, [])
      else if "mock-".toList.isPrefixOf id.toList then (some .null, [])
      else
        match env.getTestMessageUrl info with
        | .ok url => (url, [.previewLookup info])
        | .error _ => (some .null, [.previewLookup info])
  | _ => (some .null, [])

/-- The body of the `try` block of the handler, with the calls it made. -/
def sendEmailTry (env : MailEnv) (emailTransporter : Option Transport) (body : JSValue) :
    Except String Response × List MailEvent :=
  match getProp body "email", getProp body "subject", getProp body "summary" with
  | .ok email, .ok subject, .ok summary =>
      if !truthy email || !truthy subject || !truthy summary then
        (.ok ⟨400, jsonObject [("error", some (.str "Email, subject, and summary are required"))]⟩, [])
      else
        match toJSString email with
        | .error e => (.error e, [])
        | .ok address =>
            if !regexTest emailRegex address then
              (.ok ⟨400, jsonObject [("error", some (.str "Invalid email address format"))]⟩, [])
            else
              match emailTransporter with
              | none =>
                  (.ok ⟨500, jsonObject [("error",
                    some (.str "Email service not initialized. Please try again in a moment."))]⟩, [])
              | some transport =>
                  match buildMailOptions email subject summary with
                  | .error e => (.error e, [])
                  | .ok mailOptions =>
                      match transportSendMail env transport mailOptions with
                      | .error e => (.error e, [.sendMail transport mailOptions])
                      | .ok info =>
                          let preview := previewUrlOf env info
                          (.ok ⟨200, jsonObject [("success", some (.bool true)),
                                  ("message", some (.str "Email sent successfully")),
                                  ("messageId", info.messageId),
                                  ("previewUrl", preview.1)]⟩,
                            .sendMail transport mailOptions :: preview.2)
  | .error e, _, _ => (.error e, [])
  | _, .error e, _ => (.error e, [])
  | _, _, .error e => (.error e, [])

/-- The handler of `POST /send-email`: the response it writes and the calls it
made.  The `catch` reports the message of the exception. -/
def sendEmail (env : MailEnv) (emailTransporter : Option Transport) (body : JSValue) :
    Response × List MailEvent :=
  match sendEmailTry env emailTransporter body with
  | (.ok response, calls) => (response, calls)
  | (.error message, calls) =>
      (⟨500, jsonObject [("error", some (.str "Failed to send email")),
                         ("details", some (.str message))]⟩, calls)

/-! ## The client form (src/components/Demo.jsx, lines 6-36) -/

/-- The `useState` cells of the component. -/
structure DemoState where
  transcript : String
  prompt : String
  summary : JSValue
  email : String
  subject : String
  isEditing : Bool
  showEmailForm : Bool

/-- The initial values given to `useState`. -/
def DemoState.initial : DemoState :=
  ⟨"", "", some (.str ""), "", "", false, false⟩

/-- What `await getSummary(...)` can do: throw, or resolve with an object whose
`data` is the body of the response (`undefined` when the request failed). -/
inductive QueryOutcome where
  | threw
  | resolved (data : JSValue)

/-- The method `String.prototype.trim`: white space and line terminators are
removed at both ends. -/
def jsTrim (s : List Char) : List Char :=
  ((s.dropWhile isJsWhitespace).reverse.dropWhile isJsWhitespace).reverse

/-- Lines 17-31. -/
def handleSubmit (outcome : QueryOutcome) (st : DemoState) : DemoState :=
  if (jsTrim st.transcript.toList).isEmpty then st
  else
    match outcome with
    | .threw => st
    | .resolved data =>
        if truthy (optChain data "summary") then
          { st with summary := optChain data "summary", isEditing := true, showEmailForm := false }
        else st

/-- Lines 33-36. -/
def handleDoneEditing (st : DemoState) : DemoState :=
  { st with isEditing := false, showEmailForm := true }

/-- The events of the form: the two handlers, and the `onChange` of each field. -/
inductive DemoEvent where
  | submit (outcome : QueryOutcome)
  | doneEditing
  | setTranscript (value : String)
  | setPrompt (value : String)
  | setSummary (value : String)
  | setEmail (value : String)
  | setSubject (value : String)

/-- One event applied to the state. -/
def DemoState.step (st : DemoState) : DemoEvent → DemoState
  | .submit outcome => handleSubmit outcome st
  | .doneEditing => handleDoneEditing st
  | .setTranscript value => { st with transcript := value }
  | .setPrompt value => { st with prompt := value }
  | .setSummary value => { st with summary := some (.str value) }
  | .setEmail value => { st with email := value }
  | .setSubject value => { st with subject := value }

/-- The state after a sequence of events, from the initial state. -/
def DemoState.run (events : List DemoEvent) : DemoState :=
  events.foldl DemoState.step DemoState.initial

/-- The three phases of the form. -/
inductive Phase where
  | composing
  | reviewing
  | sharing
deriving DecidableEq, Repr

/-- The phase a pair of flags stands for, if any. -/
def DemoState.phase (st : DemoState) : Option Phase :=
  match st.isEditing, st.showEmailForm with
  | false, false => some .composing
  | true, false => some .reviewing
  | false, true => some .sharing
  | true, true => none

/-! ## Reading a response, and the scenarios of the specification -/

/-- A property of the JSON body of a response. -/
def Response.field (r : Response) (key : String) : JSValue :=
  optChain (some r.body) key

/-- A request body `{ transcript }` of the first scenario: prompt omitted. -/
def scenarioTranscript : JSValue :=
  some (.obj [("transcript", .str "Alice proposed X. Bob agreed.")])

/-- A well-formed completion whose first `message.content` is the number 42. -/
def numericCompletion : Json :=
  .obj [("choices", .arr [.obj [("message",
    .obj [("role", .str "assistant"), ("content", .num ⟨false, true, "42"⟩)])]])]

/-- A well-formed completion whose first `message.content` is the literal
`1e999`, which `JSON.parse` reads as `Infinity`. -/
def infiniteCompletion : Json :=
  .obj [("choices", .arr [.obj [("message",
    .obj [("role", .str "assistant"), ("content", .num ⟨false, false, "Infinity"⟩)])]])]

/-- An error document as the completion service sends it. -/
def upstreamError : Json :=
  .obj [("error", .obj [("message", .str "Invalid API Key")])]

/-- An error document that holds the literal `1e999`, which `JSON.parse` reads
as `Infinity`. -/
def infiniteError : Json :=
  .obj [("code", .num ⟨false, false, "Infinity"⟩)]

/-- The request body of the second scenario. -/
def scenarioMail : JSValue :=
  some (.obj [("email", .str "user@example.com"), ("subject", .str "Notes"),
    ("summary", .str "Test summary")])

/-- The object that lines 208-227 build for the second scenario. -/
def scenarioMailOptions : MailOptions where
  sender := "\"AI Note Summarizer\" <" ++ DEVELOPER_EMAIL ++ ">"
  recipient := some (.str "user@example.com")
  subject := some (.str "Notes")
  text := some (.str "Test summary")
  html := htmlHead ++ "Test summary" ++ htmlMiddle ++ DEVELOPER_EMAIL ++ htmlTail

/-- A mail environment for the scenarios: a clock reading, a library handle
that accepts every message, and the preview lookup of the library, which for an
`info` whose `response` carries no bracketed status answers `false`. -/
def scenarioEnv : MailEnv where
  now := 1730000000000
  liveSendMail := fun _ =>
    .ok { messageId := some (.str "<live@example.com>")
          response := some (.str "250 OK")
          envelope := none }
  getTestMessageUrl := fun _ => .ok (some (.bool false))

/-! ## Correctness of the matcher -/

namespace RE

theorem not_matches_empty (s : List Char) : ¬ Matches empty s := by
  intro h
  cases h

theorem matches_eps_iff (s : List Char) : Matches eps s ↔ s = [] := by
  constructor
  · intro h
    cases h
    rfl
  · intro h
    subst h
    exact Matches.eps

theorem matches_cls_iff (p : Char → Bool) (s : List Char) :
    Matches (cls p) s ↔ ∃ c, s = [c] ∧ p c = true := by
  constructor
  · intro h
    cases h with
    | cls _ c hc => exact ⟨c, rfl, hc⟩
  · rintro ⟨c, rfl, hc⟩
    exact Matches.cls p c hc

theorem matches_seq_iff (a b : RE) (s : List Char) :
    Matches (seq a b) s ↔ ∃ u v, s = u ++ v ∧ Matches a u ∧ Matches b v := by
  constructor
  · intro h
    cases h with
    | seq _ _ u v hu hv => exact ⟨u, v, rfl, hu, hv⟩
  · rintro ⟨u, v, rfl, hu, hv⟩
    exact Matches.seq a b u v hu hv

theorem matches_alt_iff (a b : RE) (s : List Char) :
    Matches (alt a b) s ↔ Matches a s ∨ Matches b s := by
  constructor
  · intro h
    cases h with
    | altLeft _ _ _ h => exact Or.inl h
    | altRight _ _ _ h => exact Or.inr h
  · rintro (h | h)
    · exact Matches.altLeft a b s h
    · exact Matches.altRight a b s h

/-- A non-empty match of a starred expression starts with a non-empty match of
the expression itself. -/
theorem matches_star_cons_aux (r : RE) (t : List Char) (h : Matches r t) :
    ∀ (a : RE) (c : Char) (s : List Char), r = star a → t = c :: s →
      ∃ u v, s = u ++ v ∧ Matches a (c :: u) ∧ Matches (star a) v := by
  induction h with
  | eps => intro a c s hr; cases hr
  | cls p c hc => intro a c s hr; cases hr
  | seq a b u v _ _ _ _ => intro a c s hr; cases hr
  | altLeft a b u _ _ => intro a c s hr; cases hr
  | altRight a b u _ _ => intro a c s hr; cases hr
  | starNil a => intro a c s _ ht; cases ht
  | starCons a u v hu hv _ ihv =>
      intro a2 c s hr ht
      cases hr
      cases u with
      | nil => exact ihv a c s rfl (by simpa using ht)
      | cons d u2 =>
          simp only [List.cons_append, List.cons.injEq] at ht
          obtain ⟨rfl, rfl⟩ := ht
          exact ⟨u2, v, rfl, hu, hv⟩

theorem matches_star_cons_iff (a : RE) (c : Char) (s : List Char) :
    Matches (star a) (c :: s) ↔
      ∃ u v, s = u ++ v ∧ Matches a (c :: u) ∧ Matches (star a) v := by
  constructor
  · intro h
    exact matches_star_cons_aux _ _ h a c s rfl rfl
  · rintro ⟨u, v, rfl, hu, hv⟩
    exact Matches.starCons a (c :: u) v hu hv

theorem nullable_iff (r : RE) : r.nullable = true ↔ Matches r [] := by
  induction r with
  | empty => simp [nullable, not_matches_empty]
  | eps => simp [nullable, matches_eps_iff]
  | cls p => simp [nullable, matches_cls_iff]
  | seq a b iha ihb =>
      simp only [nullable, Bool.and_eq_true, iha, ihb, matches_seq_iff]
      constructor
      · rintro ⟨ha, hb⟩
        exact ⟨[], [], rfl, ha, hb⟩
      · rintro ⟨u, v, huv, ha, hb⟩
        have h := List.append_eq_nil.mp huv.symm
        obtain ⟨rfl, rfl⟩ := h
        exact ⟨ha, hb⟩
  | alt a b iha ihb => simp [nullable, iha, ihb, matches_alt_iff]
  | star a _ => simp [nullable, Matches.starNil]

theorem deriv_iff (r : RE) (c : Char) : ∀ s : List Char,
    Matches (r.deriv c) s ↔ Matches r (c :: s) := by
  induction r with
  | empty => intro s; simp [deriv, not_matches_empty]
  | eps => intro s; simp [deriv, not_matches_empty, matches_eps_iff]
  | cls p =>
      intro s
      by_cases hp : p c = true
      · have hd : deriv c (cls p) = eps := by simp [deriv, hp]
        rw [hd, matches_eps_iff, matches_cls_iff]
        constructor
        · rintro rfl
          exact ⟨c, rfl, hp⟩
        · rintro ⟨d, hd, _⟩
          simp only [List.cons.injEq] at hd
          exact hd.2
      · have hd : deriv c (cls p) = empty := by simp [deriv, hp]
        rw [hd, matches_cls_iff]
        constructor
        · intro h
          exact absurd h (not_matches_empty s)
        · rintro ⟨d, hd, hpd⟩
          simp only [List.cons.injEq] at hd
          exact absurd (hd.1 ▸ hpd) hp
  | seq a b iha ihb =>
      intro s
      have key : Matches (seq a b) (c :: s) ↔
          (Matches a [] ∧ Matches b (c :: s)) ∨
            ∃ u v, s = u ++ v ∧ Matches a (c :: u) ∧ Matches b v := by
        rw [matches_seq_iff]
        constructor
        · rintro ⟨u, v, huv, hu, hv⟩
          cases u with
          | nil => exact Or.inl ⟨hu, by simpa using huv ▸ hv⟩
          | cons d u2 =>
              simp only [List.cons_append, List.cons.injEq] at huv
              obtain ⟨rfl, rfl⟩ := huv
              exact Or.inr ⟨u2, v, rfl, hu, hv⟩
        · rintro (⟨ha, hb⟩ | ⟨u, v, rfl, hu, hv⟩)
          · exact ⟨[], c :: s, rfl, ha, hb⟩
          · exact ⟨c :: u, v, rfl, hu, hv⟩
      refine Iff.trans ?_ key.symm
      by_cases hn : a.nullable = true
      · have hn2 : Matches a [] := (nullable_iff a).mp hn
        have hd : deriv c (seq a b) = alt (seq (a.deriv c) b) (b.deriv c) := by
          simp [deriv, hn]
        rw [hd, matches_alt_iff, matches_seq_iff, ihb]
        constructor
        · rintro (⟨u, v, rfl, hu, hv⟩ | hb)
          · exact Or.inr ⟨u, v, rfl, (iha u).mp hu, hv⟩
          · exact Or.inl ⟨hn2, hb⟩
        · rintro (⟨_, hb⟩ | ⟨u, v, rfl, hu, hv⟩)
          · exact Or.inr hb
          · exact Or.inl ⟨u, v, rfl, (iha u).mpr hu, hv⟩
      · have hn2 : ¬ Matches a [] := fun h => hn ((nullable_iff a).mpr h)
        have hd : deriv c (seq a b) = seq (a.deriv c) b := by
          simp [deriv, hn]
        rw [hd, matches_seq_iff]
        constructor
        · rintro ⟨u, v, rfl, hu, hv⟩
          exact Or.inr ⟨u, v, rfl, (iha u).mp hu, hv⟩
        · rintro (⟨ha, _⟩ | ⟨u, v, rfl, hu, hv⟩)
          · exact absurd ha hn2
          · exact ⟨u, v, rfl, (iha u).mpr hu, hv⟩
  | alt a b iha ihb => intro s; simp [deriv, matches_alt_iff, iha, ihb]
  | star a iha =>
      intro s
      simp only [deriv, matches_seq_iff, iha, matches_star_cons_iff]

theorem matchList_iff (r : RE) (s : List Char) : r.matchList s = true ↔ Matches r s := by
  induction s generalizing r with
  | nil => simpa [matchList] using nullable_iff r
  | cons c cs ih => simp only [matchList, ih, deriv_iff]

/-- A starred character class denotes the strings over the class. -/
theorem matches_star_cls_iff (p : Char → Bool) (s : List Char) :
    Matches (star (cls p)) s ↔ ∀ c ∈ s, p c = true := by
  induction s with
  | nil => simp [Matches.starNil]
  | cons d ds ih =>
      rw [matches_star_cons_iff]
      constructor
      · rintro ⟨u, v, rfl, hu, hv⟩
        rw [matches_cls_iff] at hu
        obtain ⟨e, he, hpe⟩ := hu
        simp only [List.cons.injEq] at he
        obtain ⟨rfl, rfl⟩ := he
        intro c hc
        simp only [List.nil_append, List.mem_cons] at hc
        rcases hc with rfl | hc
        · exact hpe
        · exact (ih.mp (by simpa using hv)) c hc
      · intro h
        refine ⟨[], ds, rfl, ?_, ?_⟩
        · exact Matches.cls p d (h d (List.mem_cons_self d ds))
        · exact ih.mpr (fun c hc => h c (List.mem_cons_of_mem d hc))

/-- The strings of `[class]+`: non-empty, over the class. -/
theorem matches_plus_cls_iff (p : Char → Bool) (s : List Char) :
    Matches (plus (cls p)) s ↔ s ≠ [] ∧ ∀ c ∈ s, p c = true := by
  unfold plus
  rw [matches_seq_iff]
  constructor
  · rintro ⟨u, v, rfl, hu, hv⟩
    rw [matches_cls_iff] at hu
    obtain ⟨e, rfl, hpe⟩ := hu
    rw [matches_star_cls_iff] at hv
    refine ⟨by simp, ?_⟩
    intro c hc
    simp only [List.singleton_append, List.mem_cons] at hc
    rcases hc with rfl | hc
    · exact hpe
    · exact hv c hc
  · rintro ⟨hne, h⟩
    cases s with
    | nil => exact absurd rfl hne
    | cons d ds =>
        refine ⟨[d], ds, rfl, Matches.cls p d (h d (List.mem_cons_self d ds)), ?_⟩
        exact (matches_star_cls_iff p ds).mpr (fun c hc => h c (List.mem_cons_of_mem d hc))

end RE

/-! ## The address pattern and the words of the specification -/

theorem notSpaceOrAt_iff (c : Char) :
    notSpaceOrAt c = true ↔ isJsWhitespace c = false ∧ c ≠ '@' := by
  simp [notSpaceOrAt]

/-- The strings of the pattern, spelled out. -/
theorem emailRegex_matches_iff (s : List Char) :
    RE.Matches emailRegex s ↔
      ∃ a b c, s = a ++ '@' :: (b ++ '.' :: c) ∧
        (a ≠ [] ∧ ∀ x ∈ a, notSpaceOrAt x = true) ∧
        (b ≠ [] ∧ ∀ x ∈ b, notSpaceOrAt x = true) ∧
        (c ≠ [] ∧ ∀ x ∈ c, notSpaceOrAt x = true) := by
  unfold emailRegex
  simp only [RE.matches_seq_iff, RE.matches_plus_cls_iff, RE.matches_cls_iff]
  constructor
  · rintro ⟨a, r1, rfl, ha, at1, r2, rfl, ⟨x, rfl, hx⟩, b, r3, rfl, hb, dot1, c, rfl,
      ⟨y, rfl, hy⟩, hc⟩
    have hx2 : x = '@' := by simpa using hx
    have hy2 : y = '.' := by simpa using hy
    subst hx2
    subst hy2
    exact ⟨a, b, c, by simp, ha, hb, hc⟩
  · rintro ⟨a, b, c, rfl, ha, hb, hc⟩
    exact ⟨a, '@' :: (b ++ '.' :: c), rfl, ha, ['@'], b ++ '.' :: c, rfl,
      ⟨'@', rfl, by simp⟩, b, '.' :: c, rfl, hb, ['.'], c, rfl, ⟨'.', rfl, by simp⟩, hc⟩

theorem count_at_eq_zero (l : List Char) (h : ∀ x ∈ l, notSpaceOrAt x = true) :
    l.count '@' = 0 := by
  rw [List.count_eq_zero]
  intro hm
  have := (notSpaceOrAt_iff _).mp (h _ hm)
  exact this.2 rfl

/-- The pattern accepts exactly the addresses that the specification calls
well formed. -/
theorem emailRegex_matches_iff_wellFormed (s : List Char) :
    RE.Matches emailRegex s ↔ wellFormedAddress s := by
  rw [emailRegex_matches_iff]
  constructor
  · rintro ⟨a, b, c, rfl, ⟨ha, hpa⟩, ⟨hb, hpb⟩, ⟨hc, hpc⟩⟩
    refine ⟨?_, ?_, a, b ++ '.' :: c, rfl, ha, b, c, rfl, hb, hc⟩
    · intro x hx
      simp only [List.mem_append, List.mem_cons] at hx
      rcases hx with hx | rfl | hx | rfl | hx
      · exact ((notSpaceOrAt_iff x).mp (hpa x hx)).1
      · decide
      · exact ((notSpaceOrAt_iff x).mp (hpb x hx)).1
      · decide
      · exact ((notSpaceOrAt_iff x).mp (hpc x hx)).1
    · have h1 := count_at_eq_zero a hpa
      have h2 := count_at_eq_zero b hpb
      have h3 := count_at_eq_zero c hpc
      have hne : ('.' == '@') = false := by decide
      simp [List.count_append, List.count_cons, h1, h2, h3, hne]
  · rintro ⟨hws, hcount, a, dom, rfl, ha, b, c, rfl, hb, hc⟩
    have hne : ('.' == '@') = false := by decide
    simp only [List.count_append, List.count_cons, beq_self_eq_true, if_true, hne] at hcount
    have h1 : a.count '@' = 0 := by omega
    have h2 : b.count '@' = 0 := by omega
    have h3 : c.count '@' = 0 := by omega
    rw [List.count_eq_zero] at h1 h2 h3
    have cls : ∀ l : List Char, (∀ x ∈ l, x ∈ a ++ '@' :: (b ++ '.' :: c)) → '@' ∉ l →
        ∀ x ∈ l, notSpaceOrAt x = true := by
      intro l hsub hno x hx
      rw [notSpaceOrAt_iff]
      refine ⟨hws x (hsub x hx), ?_⟩
      rintro rfl
      exact hno hx
    refine ⟨a, b, c, rfl, ⟨ha, cls a ?_ h1⟩, ⟨hb, cls b ?_ h2⟩, ⟨hc, cls c ?_ h3⟩⟩
    · intro x hx; simp [hx]
    · intro x hx; simp [hx]
    · intro x hx; simp [hx]

/-- The call `emailRegex.test(s)` answers `true` exactly on the well-formed
addresses. -/
theorem regexTest_emailRegex_iff (s : String) :
    regexTest emailRegex s = true ↔ wellFormedAddress s.toList := by
  unfold regexTest
  rw [RE.matchList_iff, emailRegex_matches_iff_wellFormed]

/-! ## Shared lemmas on the handlers -/

@[simp] theorem wire_null : Json.wire .null = .null := rfl

@[simp] theorem wire_bool (b : Bool) : Json.wire (.bool b) = .bool b := rfl

@[simp] theorem wire_str (s : String) : Json.wire (.str s) = .str s := rfl

theorem wire_num (n : JSNumber) :
    Json.wire (.num n) = if n.finite then .num n else .null := rfl

theorem getProp_ok_other (body v : JSValue) (key other : String)
    (h : getProp body key = .ok v) : getProp body other = .ok (optChain body other) := by
  cases body with
  | none => simp [getProp] at h
  | some j => cases j <;> simp_all [getProp, optChain]

theorem truthy_str (s : String) : truthy (some (.str s)) = true ↔ s ≠ "" := by
  cases s with
  | mk data =>
      cases data with
      | nil => simp [truthy, String.toList]
      | cons c cs =>
          simp only [truthy, String.toList, List.isEmpty_cons, Bool.not_false, true_iff]
          intro h
          have hd := congrArg String.data h
          simp at hd

theorem summarizeTry_of_props (apiKey : String) (fetch : OutboundRequest → FetchOutcome)
    (body transcript prompt : JSValue)
    (ht : getProp body "transcript" = .ok transcript)
    (hp : getProp body "prompt" = .ok prompt) :
    summarizeTry apiKey fetch body =
      if truthy transcript then
        match buildRequest apiKey prompt transcript with
        | .error e => (.error e, [])
        | .ok request => (afterFetch (fetch request), [request])
      else (.ok ⟨400, jsonObject [("error", some (.str "Transcript is required"))]⟩, []) := by
  unfold summarizeTry
  rw [ht, hp]

/-- The handler once the request has been built: one outbound request, and the
answer decided by its outcome. -/
theorem summarize_of_request (apiKey : String) (fetch : OutboundRequest → FetchOutcome)
    (body transcript prompt : JSValue) (request : OutboundRequest)
    (ht : getProp body "transcript" = .ok transcript)
    (hp : getProp body "prompt" = .ok prompt)
    (htr : truthy transcript = true)
    (hb : buildRequest apiKey prompt transcript = .ok request) :
    summarize apiKey fetch body =
      ((match afterFetch (fetch request) with
        | .ok response => response
        | .error _ => ⟨500, .obj [("error", .str "Internal server error")]⟩),
       [request]) := by
  unfold summarize
  rw [summarizeTry_of_props apiKey fetch body _ _ ht hp]
  simp only [htr, if_true, hb]
  cases afterFetch (fetch request) <;> rfl

/-- The handler when a string conversion throws while the request is built: no
outbound request, and the generic 500. -/
theorem summarize_of_build_error (apiKey : String) (fetch : OutboundRequest → FetchOutcome)
    (body transcript prompt : JSValue) (e : String)
    (ht : getProp body "transcript" = .ok transcript)
    (hp : getProp body "prompt" = .ok prompt)
    (htr : truthy transcript = true)
    (hb : buildRequest apiKey prompt transcript = .error e) :
    summarize apiKey fetch body =
      (⟨500, .obj [("error", .str "Internal server error")]⟩, []) := by
  unfold summarize
  rw [summarizeTry_of_props apiKey fetch body _ _ ht hp]
  simp only [htr, if_true, hb]
  rfl

/-- C1. A `POST /summarize` whose body carries no transcript, a `null`
transcript or the empty string, whatever the prompt, is answered with status 400
and the body `{error: "Transcript is required"}`, and no outbound request is
issued. -/
theorem summarize_missing_transcript (apiKey : String)
    (fetch : OutboundRequest → FetchOutcome) (body : JSValue)
    (h : getProp body "transcript" = .ok none ∨
         getProp body "transcript" = .ok (some .null) ∨
         getProp body "transcript" = .ok (some (.str ""))) :
    summarize apiKey fetch body =
      (⟨400, .obj [("error", .str "Transcript is required")]⟩, []) := by
  rcases h with h | h | h <;>
  · have hp := getProp_ok_other body _ "transcript" "prompt" h
    unfold summarize
    rw [summarizeTry_of_props apiKey fetch body _ _ h hp]
    simp [truthy, jsonObject]

theorem summarize_missing_transcript_witness :
    summarize "key" (fun _ => .rejected "unreachable")
        (some (.obj [("prompt", .str "Bullet points"), ("transcript", .str "")])) =
      (⟨400, .obj [("error", .str "Transcript is required")]⟩, []) :=
  summarize_missing_transcript "key" (fun _ => .rejected "unreachable")
    (some (.obj [("prompt", .str "Bullet points"), ("transcript", .str "")]))
    (Or.inr (Or.inr rfl))

theorem field_error_obj (status : Nat) (msg : String) (rest : List (String × Json)) :
    Response.field ⟨status, .obj (("error", .str msg) :: rest)⟩ "error" = some (.str msg) := by
  simp [Response.field, optChain, lookupField]

/-- The reading of line 167, step by step. -/
theorem extractSummary_of_steps (data : Json) (choices first : JSValue)
    (hc : getProp (some data) "choices" = .ok choices)
    (hf : getIndex0 choices = .ok first) :
    extractSummary (some data) = .ok (optChain (optChain first "message") "content") := by
  unfold extractSummary
  rw [hc]
  simp only [hf]

/-- What the handler makes of the outcome of `fetch`: a 200 whose summary is
the truthy `message.content` of the first choice as it is written, a 500 with
an `error`, or an exception. -/
theorem afterFetch_shape (outcome : FetchOutcome) :
    (∃ e, afterFetch outcome = .error e) ∨
    (∃ status data choices first content,
      outcome = .responded true status (some data) ∧
      getProp (some data) "choices" = .ok choices ∧
      getIndex0 choices = .ok first ∧
      optChain (optChain first "message") "content" = some content ∧
      truthy (some content) = true ∧
      afterFetch outcome = .ok ⟨200, .obj [("summary", content.wire)]⟩) ∨
    (∃ r msg, afterFetch outcome = .ok r ∧ r.status = 500 ∧
      r.field "error" = some (.str msg)) := by
  cases outcome with
  | rejected message => exact Or.inl ⟨message, rfl⟩
  | responded ok status json =>
      cases ok with
      | false =>
          cases json with
          | none => exact Or.inl ⟨_, rfl⟩
          | some errorData =>
              exact Or.inr (Or.inr ⟨⟨500, .obj [("error",
                  .str "Failed to generate summary from GROQ API"),
                  ("details", errorData.wire)]⟩,
                "Failed to generate summary from GROQ API", rfl, rfl, field_error_obj _ _ _⟩)
      | true =>
          cases json with
          | none => exact Or.inl ⟨_, rfl⟩
          | some data =>
              cases hc : getProp (some data) "choices" with
              | error e =>
                  refine Or.inl ⟨e, ?_⟩
                  simp only [afterFetch, extractSummary, hc]
              | ok choices =>
                  cases hf : getIndex0 choices with
                  | error e =>
                      refine Or.inl ⟨e, ?_⟩
                      simp only [afterFetch, extractSummary, hc, hf]
                  | ok first =>
                      have hx := extractSummary_of_steps data choices first hc hf
                      cases hcont : optChain (optChain first "message") "content" with
                      | none =>
                          refine Or.inr (Or.inr ⟨⟨500, .obj [("error",
                            .str "No summary generated")]⟩, "No summary generated", ?_, rfl,
                            field_error_obj _ _ _⟩)
                          simp only [afterFetch, hx, hcont]
                          rfl
                      | some content =>
                          by_cases hs : truthy (some content) = true
                          · refine Or.inr (Or.inl ⟨status, data, choices, first, content, rfl,
                              hc, hf, hcont, hs, ?_⟩)
                            simp only [afterFetch, hx, hcont, hs]
                            rfl
                          · refine Or.inr (Or.inr ⟨⟨500, .obj [("error",
                              .str "No summary generated")]⟩, "No summary generated", ?_, rfl,
                              field_error_obj _ _ _⟩)
                            simp only [afterFetch, hx, hcont, hs]
                            rfl

/-- C2 (amended). For a `POST /summarize` with a truthy transcript and every
outcome of the outbound call, the answer is either status 500 with an `error`
field, or status 200 with a body `{summary}`; the 200 is given only when the
call succeeded with a JSON body whose `choices[0]?.message?.content` is truthy,
and the summary is then that content as `res.json` writes it: the same
non-empty string when the content is a string (a truthy content that is not a
string is passed through, a number that is not finite being written as
`null`).  A 200 is never given for an empty or absent content. -/
theorem summarize_response_shape (apiKey : String)
    (fetch : OutboundRequest → FetchOutcome) (body transcript : JSValue)
    (ht : getProp body "transcript" = .ok transcript)
    (htr : truthy transcript = true) :
    (∃ request status data choices first content,
      (summarize apiKey fetch body).2 = [request] ∧
      fetch request = .responded true status (some data) ∧
      getProp (some data) "choices" = .ok choices ∧
      getIndex0 choices = .ok first ∧
      optChain (optChain first "message") "content" = some content ∧
      truthy (some content) = true ∧
      (∀ s, content = .str s → s ≠ "" ∧ content.wire = .str s) ∧
      (summarize apiKey fetch body).1 = ⟨200, .obj [("summary", content.wire)]⟩) ∨
    ((summarize apiKey fetch body).1.status = 500 ∧
      ∃ msg, (summarize apiKey fetch body).1.field "error" = some (.str msg)) := by
  have hp := getProp_ok_other body _ "transcript" "prompt" ht
  cases hb : buildRequest apiKey (optChain body "prompt") transcript with
  | error e =>
      rw [summarize_of_build_error apiKey fetch body _ _ e ht hp htr hb]
      exact Or.inr ⟨rfl, _, field_error_obj _ _ _⟩
  | ok request =>
      rw [summarize_of_request apiKey fetch body _ _ request ht hp htr hb]
      rcases afterFetch_shape (fetch request) with
        ⟨e, he⟩ | ⟨status, data, choices, first, content, ho, hc, hf, hcont, hs, he⟩ |
        ⟨r, msg, he, hr, hm⟩
      · rw [he]
        exact Or.inr ⟨rfl, _, field_error_obj _ _ _⟩
      · rw [he]
        refine Or.inl ⟨request, status, data, choices, first, content, rfl, ho, hc, hf, hcont,
          hs, ?_, rfl⟩
        intro s hstr
        subst hstr
        exact ⟨(truthy_str s).mp hs, rfl⟩
      · rw [he]
        exact Or.inr ⟨hr, msg, hm⟩

theorem summarize_response_shape_witness :
    (∃ request status data choices first content,
      (summarize "key" (fun _ => .responded true 200 (some numericCompletion))
        scenarioTranscript).2 = [request] ∧
      (fun _ => FetchOutcome.responded true 200 (some numericCompletion)) request =
        .responded true status (some data) ∧
      getProp (some data) "choices" = .ok choices ∧
      getIndex0 choices = .ok first ∧
      optChain (optChain first "message") "content" = some content ∧
      truthy (some content) = true ∧
      (∀ s, content = .str s → s ≠ "" ∧ content.wire = .str s) ∧
      (summarize "key" (fun _ => .responded true 200 (some numericCompletion))
        scenarioTranscript).1 = ⟨200, .obj [("summary", content.wire)]⟩) ∨
    ((summarize "key" (fun _ => .responded true 200 (some numericCompletion))
        scenarioTranscript).1.status = 500 ∧
      ∃ msg, (summarize "key" (fun _ => .responded true 200 (some numericCompletion))
        scenarioTranscript).1.field "error" = some (.str msg)) :=
  summarize_response_shape "key" (fun _ => .responded true 200 (some numericCompletion))
    scenarioTranscript (some (.str "Alice proposed X. Bob agreed.")) rfl rfl

/-- C2 (counterexample). With the transcript of the scenario and a successful
completion whose `message.content` is the number 42, the handler answers 200
with `{summary: 42}`: the summary is not a string.  With a content `1e999`,
which is read as `Infinity`, it answers 200 with `{summary: null}`. -/
theorem summarize_numeric_summary_counterexample :
    (summarize "key" (fun _ => .responded true 200 (some numericCompletion))
        scenarioTranscript).1.status = 200 ∧
    (summarize "key" (fun _ => .responded true 200 (some numericCompletion))
        scenarioTranscript).1.body = .obj [("summary", .num ⟨false, true, "42"⟩)] ∧
    (¬ ∃ s : String,
        (summarize "key" (fun _ => .responded true 200 (some numericCompletion))
          scenarioTranscript).1.body = .obj [("summary", .str s)]) ∧
    (summarize "key" (fun _ => .responded true 200 (some infiniteCompletion))
        scenarioTranscript).1.status = 200 ∧
    (summarize "key" (fun _ => .responded true 200 (some infiniteCompletion))
        scenarioTranscript).1.body = .obj [("summary", .null)] := by
  refine ⟨rfl, rfl, ?_, rfl, rfl⟩
  rintro ⟨s, hs⟩
  have h : (Json.obj [("summary", .num ⟨false, true, "42"⟩)]) = .obj [("summary", .str s)] := hs
  simp at h

/-- C7 (amended). For a `POST /summarize` with a truthy transcript, the single
outbound request carries exactly two messages, the fixed system instruction and
then one user message, with `max_tokens = 1000` and `temperature = 0.3`; the
content of the user message is the prompt when one was supplied and is not
empty, otherwise the default prompt, followed by a blank line, the line
`Transcript:` and the transcript (values that are not strings enter by their
string conversion, which is the identity on strings). -/
theorem summarize_outbound_request (apiKey : String)
    (fetch : OutboundRequest → FetchOutcome) (body transcript prompt : JSValue)
    (t p : String)
    (ht : getProp body "transcript" = .ok transcript)
    (hp : getProp body "prompt" = .ok prompt)
    (htr : truthy transcript = true)
    (hts : toJSString transcript = .ok t)
    (hps : toJSString (if truthy prompt then prompt else some (.str defaultPrompt)) = .ok p) :
    (summarize apiKey fetch body).2 =
      [{ url := GROQ_API_URL
         method := "POST"
         authorization := "Bearer " ++ apiKey
         contentType := "application/json"
         body :=
           { model := "llama3-8b-8192"
             messages := [⟨"system", systemInstruction⟩,
                          ⟨"user", p ++ "\n\nTranscript:\n" ++ t⟩]
             max_tokens := 1000
             temperature := 3 / 10 } }] := by
  have hb : buildRequest apiKey prompt transcript = .ok
      { url := GROQ_API_URL
        method := "POST"
        authorization := "Bearer " ++ apiKey
        contentType := "application/json"
        body :=
          { model := "llama3-8b-8192"
            messages := [⟨"system", systemInstruction⟩,
                         ⟨"user", p ++ "\n\nTranscript:\n" ++ t⟩]
            max_tokens := 1000
            temperature := 3 / 10 } } := by
    unfold buildRequest userContent finalPrompt
    rw [hps, hts]
  rw [summarize_of_request apiKey fetch body _ _ _ ht hp htr hb]

theorem summarize_outbound_request_witness :
    (summarize "key" (fun _ => .rejected "offline") scenarioTranscript).2 =
      [{ url := GROQ_API_URL
         method := "POST"
         authorization := "Bearer " ++ "key"
         contentType := "application/json"
         body :=
           { model := "llama3-8b-8192"
             messages := [⟨"system", systemInstruction⟩,
                          ⟨"user", defaultPrompt ++ "\n\nTranscript:\n" ++
                            "Alice proposed X. Bob agreed."⟩]
             max_tokens := 1000
             temperature := 3 / 10 } }] :=
  summarize_outbound_request "key" (fun _ => .rejected "offline") scenarioTranscript
    (some (.str "Alice proposed X. Bob agreed.")) none
    "Alice proposed X. Bob agreed." defaultPrompt rfl rfl rfl rfl rfl

/-- C7 (counterexample). In the scenario of the specification (prompt omitted)
the content of the user message is not the default prompt, a blank line and the
transcript: the line `Transcript:` stands between them.  And a prompt supplied
as the empty string is replaced by the default prompt. -/
theorem summarize_user_content_counterexample :
    (summarize "key" (fun _ => .rejected "offline") scenarioTranscript).2.map
        (fun request => request.body.messages.map (fun m => m.content)) =
      [[systemInstruction,
        defaultPrompt ++ "\n\nTranscript:\nAlice proposed X. Bob agreed."]] ∧
    defaultPrompt ++ "\n\nTranscript:\nAlice proposed X. Bob agreed." ≠
      defaultPrompt ++ "\n\n" ++ "Alice proposed X. Bob agreed." ∧
    (summarize "key" (fun _ => .rejected "offline")
        (some (.obj [("transcript", .str "Alice proposed X. Bob agreed."),
          ("prompt", .str "")]))).2.map
        (fun request => request.body.messages.map (fun m => m.content)) =
      [[systemInstruction,
        defaultPrompt ++ "\n\nTranscript:\nAlice proposed X. Bob agreed."]] := by
  refine ⟨by rfl, by decide, by rfl⟩

/-- C8 (amended). For a `POST /summarize` with a truthy transcript whose one
outbound request is answered with a non-success status: for every upstream
status and body the answer is 500 with an `error` field and exactly one
outbound request was made; and when the upstream body parses as JSON, the
payload is the error text of the handler with `details` equal to that parsed
body as `res.json` writes it (a number that is not finite is written as
`null`; the upstream status is not part of the payload). -/
theorem summarize_upstream_failure (apiKey : String)
    (fetch : OutboundRequest → FetchOutcome) (body transcript prompt : JSValue)
    (request : OutboundRequest) (status : Nat) (json : Option Json)
    (ht : getProp body "transcript" = .ok transcript)
    (hp : getProp body "prompt" = .ok prompt)
    (htr : truthy transcript = true)
    (hb : buildRequest apiKey prompt transcript = .ok request)
    (hf : fetch request = .responded false status json) :
    (summarize apiKey fetch body).2 = [request] ∧
    (summarize apiKey fetch body).1.status = 500 ∧
    (∃ msg, (summarize apiKey fetch body).1.field "error" = some (.str msg)) ∧
    (∀ errorData, json = some errorData →
      (summarize apiKey fetch body).1 =
        ⟨500, .obj [("error", .str "Failed to generate summary from GROQ API"),
                    ("details", errorData.wire)]⟩) := by
  rw [summarize_of_request apiKey fetch body _ _ request ht hp htr hb, hf]
  refine ⟨rfl, ?_, ?_, ?_⟩
  · cases json <;> rfl
  · cases json with
    | none => exact ⟨_, field_error_obj _ _ _⟩
    | some errorData => exact ⟨_, field_error_obj _ _ _⟩
  · rintro errorData rfl
    rfl

theorem summarize_upstream_failure_witness :
    (summarize "key" (fun _ => .responded false 401 (some upstreamError))
        scenarioTranscript).2 =
      [{ url := GROQ_API_URL
         method := "POST"
         authorization := "Bearer " ++ "key"
         contentType := "application/json"
         body :=
           { model := "llama3-8b-8192"
             messages := [⟨"system", systemInstruction⟩,
                          ⟨"user", defaultPrompt ++ "\n\nTranscript:\n" ++
                            "Alice proposed X. Bob agreed."⟩]
             max_tokens := 1000
             temperature := 3 / 10 } }] ∧
    (summarize "key" (fun _ => .responded false 401 (some upstreamError))
        scenarioTranscript).1 =
      ⟨500, .obj [("error", .str "Failed to generate summary from GROQ API"),
                  ("details", upstreamError)]⟩ :=
  have h := summarize_upstream_failure "key"
    (fun _ => .responded false 401 (some upstreamError))
    scenarioTranscript (some (.str "Alice proposed X. Bob agreed.")) none _ 401
    (some upstreamError) rfl rfl rfl rfl rfl
  ⟨h.1, h.2.2.2 upstreamError rfl⟩

/-- C8 (counterexample). An upstream 502 whose body is not JSON is answered with
the generic 500, which has no `details`; an upstream 401 and an upstream 503
with the same body are answered identically, so the payload does not carry the
upstream status; and an upstream body that holds `1e999` comes back with
`null` in its place, so `details` is not always the upstream body. -/
theorem summarize_upstream_details_counterexample :
    (summarize "key" (fun _ => .responded false 502 none) scenarioTranscript).1.body =
      .obj [("error", .str "Internal server error")] ∧
    (summarize "key" (fun _ => .responded false 502 none) scenarioTranscript).1.field
      "details" = none ∧
    (summarize "key" (fun _ => .responded false 401 (some upstreamError))
        scenarioTranscript).1.body =
      (summarize "key" (fun _ => .responded false 503 (some upstreamError))
        scenarioTranscript).1.body ∧
    (summarize "key" (fun _ => .responded false 500 (some infiniteError))
        scenarioTranscript).1.field "details" = some (.obj [("code", .null)]) := by
  refine ⟨by rfl, by rfl, by rfl, by rfl⟩

/-! ## Shared lemmas on `POST /send-email` -/

theorem sendEmailTry_of_props (env : MailEnv) (emailTransporter : Option Transport)
    (body email subject summary : JSValue)
    (he : getProp body "email" = .ok email)
    (hs : getProp body "subject" = .ok subject)
    (hm : getProp body "summary" = .ok summary) :
    sendEmailTry env emailTransporter body =
      if !truthy email || !truthy subject || !truthy summary then
        (.ok ⟨400, jsonObject [("error", some (.str "Email, subject, and summary are required"))]⟩, [])
      else
        match toJSString email with
        | .error e => (.error e, [])
        | .ok address =>
            if !regexTest emailRegex address then
              (.ok ⟨400, jsonObject [("error", some (.str "Invalid email address format"))]⟩, [])
            else
              match emailTransporter with
              | none =>
                  (.ok ⟨500, jsonObject [("error",
                    some (.str "Email service not initialized. Please try again in a moment."))]⟩, [])
              | some transport =>
                  match buildMailOptions email subject summary with
                  | .error e => (.error e, [])
                  | .ok mailOptions =>
                      match transportSendMail env transport mailOptions with
                      | .error e => (.error e, [.sendMail transport mailOptions])
                      | .ok info =>
                          let preview := previewUrlOf env info
                          (.ok ⟨200, jsonObject [("success", some (.bool true)),
                                  ("message", some (.str "Email sent successfully")),
                                  ("messageId", info.messageId),
                                  ("previewUrl", preview.1)]⟩,
                            .sendMail transport mailOptions :: preview.2) := by
  unfold sendEmailTry
  rw [he, hs, hm]

/-- The handler on a request that fails the address pattern. -/
theorem sendEmail_of_bad_address (env : MailEnv) (emailTransporter : Option Transport)
    (body email subject summary : JSValue) (address : String)
    (he : getProp body "email" = .ok email)
    (hs : getProp body "subject" = .ok subject)
    (hm : getProp body "summary" = .ok summary)
    (hte : truthy email = true) (hts : truthy subject = true) (htm : truthy summary = true)
    (ha : toJSString email = .ok address)
    (hre : regexTest emailRegex address = false) :
    sendEmail env emailTransporter body =
      (⟨400, .obj [("error", .str "Invalid email address format")]⟩, []) := by
  unfold sendEmail
  rw [sendEmailTry_of_props env emailTransporter body _ _ _ he hs hm]
  simp only [hte, hts, htm, ha, hre]
  rfl

/-- The handler on a request that passes both checks while no transport is
assigned. -/
theorem sendEmail_of_unassigned (env : MailEnv)
    (body email subject summary : JSValue) (address : String)
    (he : getProp body "email" = .ok email)
    (hs : getProp body "subject" = .ok subject)
    (hm : getProp body "summary" = .ok summary)
    (hte : truthy email = true) (hts : truthy subject = true) (htm : truthy summary = true)
    (ha : toJSString email = .ok address)
    (hre : regexTest emailRegex address = true) :
    sendEmail env none body =
      (⟨500, .obj [("error",
          .str "Email service not initialized. Please try again in a moment.")]⟩, []) := by
  unfold sendEmail
  rw [sendEmailTry_of_props env none body _ _ _ he hs hm]
  simp only [hte, hts, htm, ha, hre]
  rfl

/-- The handler on a request that passes both checks when the string
conversion of the summary throws. -/
theorem sendEmail_of_options_error (env : MailEnv) (transport : Transport)
    (body email subject summary : JSValue) (address e : String)
    (he : getProp body "email" = .ok email)
    (hs : getProp body "subject" = .ok subject)
    (hm : getProp body "summary" = .ok summary)
    (hte : truthy email = true) (hts : truthy subject = true) (htm : truthy summary = true)
    (ha : toJSString email = .ok address)
    (hre : regexTest emailRegex address = true)
    (hb : buildMailOptions email subject summary = .error e) :
    sendEmail env (some transport) body =
      (⟨500, .obj [("error", .str "Failed to send email"), ("details", .str e)]⟩, []) := by
  unfold sendEmail
  rw [sendEmailTry_of_props env (some transport) body _ _ _ he hs hm]
  simp only [hte, hts, htm, ha, hre, hb]
  rfl

/-- The handler on a request that passes both checks with a transport
assigned: one `sendMail`, then either the 500 of the `catch` or the 200. -/
theorem sendEmail_of_options (env : MailEnv) (transport : Transport)
    (body email subject summary : JSValue) (address : String) (mailOptions : MailOptions)
    (he : getProp body "email" = .ok email)
    (hs : getProp body "subject" = .ok subject)
    (hm : getProp body "summary" = .ok summary)
    (hte : truthy email = true) (hts : truthy subject = true) (htm : truthy summary = true)
    (ha : toJSString email = .ok address)
    (hre : regexTest emailRegex address = true)
    (hb : buildMailOptions email subject summary = .ok mailOptions) :
    sendEmail env (some transport) body =
      match transportSendMail env transport mailOptions with
      | .error e =>
          (⟨500, .obj [("error", .str "Failed to send email"), ("details", .str e)]⟩,
            [.sendMail transport mailOptions])
      | .ok info =>
          (⟨200, jsonObject [("success", some (.bool true)),
                  ("message", some (.str "Email sent successfully")),
                  ("messageId", info.messageId),
                  ("previewUrl", (previewUrlOf env info).1)]⟩,
            .sendMail transport mailOptions :: (previewUrlOf env info).2) := by
  unfold sendEmail
  rw [sendEmailTry_of_props env (some transport) body _ _ _ he hs hm]
  simp only [hte, hts, htm, ha, hre, hb]
  cases transportSendMail env transport mailOptions <;> rfl

/-- Once both checks are passed the status is never 400. -/
theorem sendEmail_status_of_valid (env : MailEnv) (emailTransporter : Option Transport)
    (body email subject summary : JSValue) (address : String)
    (he : getProp body "email" = .ok email)
    (hs : getProp body "subject" = .ok subject)
    (hm : getProp body "summary" = .ok summary)
    (hte : truthy email = true) (hts : truthy subject = true) (htm : truthy summary = true)
    (ha : toJSString email = .ok address)
    (hre : regexTest emailRegex address = true) :
    (sendEmail env emailTransporter body).1.status ≠ 400 := by
  cases emailTransporter with
  | none =>
      rw [sendEmail_of_unassigned env body _ _ _ address he hs hm hte hts htm ha hre]
      decide
  | some transport =>
      cases hb : buildMailOptions email subject summary with
      | error e =>
          rw [sendEmail_of_options_error env transport body _ _ _ address e he hs hm hte hts htm
            ha hre hb]
          simp
      | ok mailOptions =>
          rw [sendEmail_of_options env transport body _ _ _ address mailOptions he hs hm hte hts
            htm ha hre hb]
          cases transportSendMail env transport mailOptions <;> simp

/-- C3 (amended). On a `POST /send-email` whose three fields are present and
non-empty and whose `email` has a string conversion (every string has: itself),
the answer is 400 with `{error: "Invalid email address format"}` exactly when
that address is not well formed: no whitespace, exactly one `@`, a non-empty
local part, and a domain with a `.` that has a character before it and one
after it.  `not-an-email`, `a@b` and `a b@c.com` are not well formed and
`user@example.com` is. -/
theorem sendEmail_invalid_format_iff :
    (∀ (env : MailEnv) (emailTransporter : Option Transport)
        (body email subject summary : JSValue) (address : String),
        getProp body "email" = .ok email →
        getProp body "subject" = .ok subject →
        getProp body "summary" = .ok summary →
        truthy email = true → truthy subject = true → truthy summary = true →
        toJSString email = .ok address →
        ((sendEmail env emailTransporter body).1 =
            ⟨400, .obj [("error", .str "Invalid email address format")]⟩ ↔
          ¬ wellFormedAddress address.toList)) ∧
    ¬ wellFormedAddress "not-an-email".toList ∧
    ¬ wellFormedAddress "a@b".toList ∧
    ¬ wellFormedAddress "a b@c.com".toList ∧
    wellFormedAddress "user@example.com".toList := by
  refine ⟨?_, ?_, ?_, ?_, ?_⟩
  · intro env emailTransporter body email subject summary address he hs hm hte hts htm ha
    rw [← regexTest_emailRegex_iff]
    cases hre : regexTest emailRegex address with
    | false =>
        rw [sendEmail_of_bad_address env emailTransporter body _ _ _ address he hs hm hte hts
          htm ha hre]
        simp
    | true =>
        have hst := sendEmail_status_of_valid env emailTransporter body _ _ _ address he hs hm
          hte hts htm ha hre
        constructor
        · intro h
          rw [h] at hst
          exact absurd rfl hst
        · intro h
          exact absurd rfl h
  · rw [← regexTest_emailRegex_iff]; decide
  · rw [← regexTest_emailRegex_iff]; decide
  · rw [← regexTest_emailRegex_iff]; decide
  · rw [← regexTest_emailRegex_iff]; decide

theorem sendEmail_invalid_format_iff_witness :
    ((sendEmail scenarioEnv (some .simulation)
        (some (.obj [("email", .str "a@b"), ("subject", .str "Notes"),
          ("summary", .str "Test summary")]))).1 =
        ⟨400, .obj [("error", .str "Invalid email address format")]⟩ ↔
      ¬ wellFormedAddress "a@b".toList) ∧
    ¬ wellFormedAddress "a@b".toList :=
  ⟨sendEmail_invalid_format_iff.1 scenarioEnv (some .simulation)
      (some (.obj [("email", .str "a@b"), ("subject", .str "Notes"),
        ("summary", .str "Test summary")]))
      (some (.str "a@b")) (some (.str "Notes")) (some (.str "Test summary")) "a@b"
      rfl rfl rfl rfl rfl rfl rfl,
    sendEmail_invalid_format_iff.2.2.1⟩

/-- C3 (counterexample). A request whose `email` is the object
`{"toString": 1}` has all three fields present and non-empty, and its `email`
is no well-formed address; yet the answer is not the 400 of the format check:
the string conversion made by `emailRegex.test` throws, and the `catch` answers
500 `Failed to send email`. -/
theorem sendEmail_unconvertible_email_counterexample :
    truthy (some (.obj [("toString", .num ⟨false, true, "1"⟩)])) = true ∧
    (sendEmail scenarioEnv (some .simulation)
        (some (.obj [("email", .obj [("toString", .num ⟨false, true, "1"⟩)]),
          ("subject", .str "Notes"), ("summary", .str "Test summary")]))).1.status = 500 ∧
    (sendEmail scenarioEnv (some .simulation)
        (some (.obj [("email", .obj [("toString", .num ⟨false, true, "1"⟩)]),
          ("subject", .str "Notes"), ("summary", .str "Test summary")]))).1.body =
      .obj [("error", .str "Failed to send email"),
            ("details", .str "Cannot convert object to primitive value")] := by
  refine ⟨by rfl, by rfl, by rfl⟩

/-- C4. On a `POST /send-email` in which one of `email`, `subject`, `summary`
is missing or empty, the answer is 400 with
`{error: "Email, subject, and summary are required"}`, whatever the address
looks like and whether or not a transport is assigned, and `sendMail` is not
called. -/
theorem sendEmail_required_fields (env : MailEnv) (emailTransporter : Option Transport)
    (body email subject summary : JSValue)
    (he : getProp body "email" = .ok email)
    (hs : getProp body "subject" = .ok subject)
    (hm : getProp body "summary" = .ok summary)
    (hmiss : truthy email = false ∨ truthy subject = false ∨ truthy summary = false) :
    sendEmail env emailTransporter body =
      (⟨400, .obj [("error", .str "Email, subject, and summary are required")]⟩, []) := by
  unfold sendEmail
  rw [sendEmailTry_of_props env emailTransporter body _ _ _ he hs hm]
  have hc : (!truthy email || !truthy subject || !truthy summary) = true := by
    rcases hmiss with h | h | h <;> simp [h]
  rw [if_pos hc]
  rfl

theorem sendEmail_required_fields_witness :
    sendEmail scenarioEnv none
        (some (.obj [("email", .str "not-an-email"), ("summary", .str "Test summary")])) =
      (⟨400, .obj [("error", .str "Email, subject, and summary are required")]⟩, []) :=
  sendEmail_required_fields scenarioEnv none
    (some (.obj [("email", .str "not-an-email"), ("summary", .str "Test summary")]))
    (some (.str "not-an-email")) none (some (.str "Test summary")) rfl rfl rfl
    (Or.inr (Or.inl rfl))

/-- The id of a simulated message does not start with `mock-`, so lines 236-239
go on to the preview lookup. -/
theorem previewUrlOf_simulated (env : MailEnv) (stamp : String) (response : JSValue)
    (envelope : Option (String × List JSValue)) :
    previewUrlOf env ⟨some (.str ("simulated-" ++ stamp ++ "@notesummarizer.com")),
        response, envelope⟩ =
      match env.getTestMessageUrl
          ⟨some (.str ("simulated-" ++ stamp ++ "@notesummarizer.com")), response, envelope⟩ with
      | .ok url =>
          (url, [.previewLookup
            ⟨some (.str ("simulated-" ++ stamp ++ "@notesummarizer.com")), response, envelope⟩])
      | .error _ =>
          (some .null, [.previewLookup
            ⟨some (.str ("simulated-" ++ stamp ++ "@notesummarizer.com")), response, envelope⟩]) := by
  have hl : ("simulated-" ++ stamp ++ "@notesummarizer.com").toList =
      's' :: ("imulated-".toList ++ stamp.toList ++ "@notesummarizer.com".toList) := by
    simp [String.toList, String.data_append]
  unfold previewUrlOf
  simp only [hl]
  have hm : "mock-".toList = ['m', 'o', 'c', 'k', '-'] := rfl
  rw [hm]
  simp [List.isPrefixOf]

/-- C5 (amended). On a `POST /send-email` whose `email` and `subject` are
present, whose `summary` is a non-empty string and whose address passes the
pattern, with the simulation transport assigned: the `sendMail` of the
simulation succeeds, and the answer is 200 with `success = true`,
`message = "Email sent successfully"` and the message id
`simulated-<timestamp>@notesummarizer.com`. -/
theorem sendEmail_simulation_success (env : MailEnv)
    (body email subject : JSValue) (text address : String)
    (he : getProp body "email" = .ok email)
    (hs : getProp body "subject" = .ok subject)
    (hm : getProp body "summary" = .ok (some (.str text)))
    (hte : truthy email = true) (hts : truthy subject = true) (htext : text ≠ "")
    (ha : toJSString email = .ok address)
    (hre : regexTest emailRegex address = true) :
    (∃ mailOptions info,
      buildMailOptions email subject (some (.str text)) = .ok mailOptions ∧
      simulationSendMail env.now mailOptions = .ok info ∧
      (sendEmail env (some .simulation) body).2.head? =
        some (.sendMail .simulation mailOptions)) ∧
    (sendEmail env (some .simulation) body).1.status = 200 ∧
    (sendEmail env (some .simulation) body).1.field "success" = some (.bool true) ∧
    (sendEmail env (some .simulation) body).1.field "message" =
      some (.str "Email sent successfully") ∧
    (sendEmail env (some .simulation) body).1.field "messageId" =
      some (.str ("simulated-" ++ toString env.now ++ "@notesummarizer.com")) := by
  have htm : truthy (some (.str text)) = true := (truthy_str text).mpr htext
  have hb : buildMailOptions email subject (some (.str text)) = .ok
      { sender := "\"AI Note Summarizer\" <" ++ DEVELOPER_EMAIL ++ ">"
        recipient := email
        subject := subject
        text := some (.str text)
        html := htmlHead ++ text ++ htmlMiddle ++ DEVELOPER_EMAIL ++ htmlTail } := rfl
  rw [sendEmail_of_options env .simulation body _ _ _ address _ he hs hm hte hts htm ha hre hb]
  refine ⟨⟨_, _, rfl, rfl, rfl⟩, rfl, ?_, ?_, ?_⟩ <;>
    simp [transportSendMail, simulationSendMail, Response.field, optChain, jsonObject,
      lookupField]

theorem sendEmail_simulation_success_witness :
    (sendEmail scenarioEnv (some .simulation) scenarioMail).1.status = 200 ∧
    (sendEmail scenarioEnv (some .simulation) scenarioMail).1.field "messageId" =
      some (.str ("simulated-" ++ toString scenarioEnv.now ++ "@notesummarizer.com")) :=
  have h := sendEmail_simulation_success scenarioEnv scenarioMail
    (some (.str "user@example.com")) (some (.str "Notes")) "Test summary" "user@example.com"
    rfl rfl rfl rfl rfl (by decide) rfl (by decide)
  ⟨h.2.1, h.2.2.2.2⟩

/-- C5 (counterexample). With the simulation transport assigned, a request
whose three fields are present and whose address is well formed, but whose
`summary` is the number 5, makes the `sendMail` of the simulation fail at
`mailOptions.text.substring`, and the answer is 500. -/
theorem sendEmail_simulation_numeric_summary_counterexample :
    (sendEmail scenarioEnv (some .simulation)
        (some (.obj [("email", .str "user@example.com"), ("subject", .str "Notes"),
          ("summary", .num ⟨false, true, "5"⟩)]))).1.status = 500 ∧
    (sendEmail scenarioEnv (some .simulation)
        (some (.obj [("email", .str "user@example.com"), ("subject", .str "Notes"),
          ("summary", .num ⟨false, true, "5"⟩)]))).1.body =
      .obj [("error", .str "Failed to send email"), ("details", .str substringMessage)] := by
  refine ⟨by rfl, by rfl⟩

/-- C6 (what the code does). In the scenario of the specification, with the
simulation transport assigned, the handler calls `sendMail` and then the
preview lookup of the library on the simulated `info`, and `previewUrl` is what
the lookup answers, as `res.json` writes it (`null` if the lookup throws): the test of line 236
looks for `mock-` while the simulated id starts with `simulated-`.  With a
lookup that answers `false`, `previewUrl` is `false`. -/
theorem sendEmail_simulation_preview_lookup :
    (∀ env : MailEnv, ∃ mailOptions info,
      info.messageId =
        some (.str ("simulated-" ++ toString env.now ++ "@notesummarizer.com")) ∧
      (sendEmail env (some .simulation) scenarioMail).2 =
        [.sendMail .simulation mailOptions, .previewLookup info] ∧
      (sendEmail env (some .simulation) scenarioMail).1.field "previewUrl" =
        match env.getTestMessageUrl info with
        | .ok url => url.map Json.wire
        | .error _ => some .null) ∧
    (sendEmail scenarioEnv (some .simulation) scenarioMail).1.field "previewUrl" =
      some (.bool false) := by
  refine ⟨?_, by rfl⟩
  intro env
  have hb : buildMailOptions (some (.str "user@example.com")) (some (.str "Notes"))
      (some (.str "Test summary")) = .ok scenarioMailOptions := rfl
  rw [sendEmail_of_options env .simulation scenarioMail _ _ _ "user@example.com"
    scenarioMailOptions rfl rfl rfl rfl rfl rfl rfl (by decide) hb]
  have hsend : transportSendMail env .simulation scenarioMailOptions = .ok
      ⟨some (.str ("simulated-" ++ toString env.now ++ "@notesummarizer.com")),
        some (.str "250 Message accepted for delivery (simulated)"),
        some (DEVELOPER_EMAIL, [some (.str "user@example.com")])⟩ := rfl
  rw [hsend]
  refine ⟨scenarioMailOptions, ⟨some (.str ("simulated-" ++ toString env.now ++
      "@notesummarizer.com")),
    some (.str "250 Message accepted for delivery (simulated)"),
    some (DEVELOPER_EMAIL, [some (.str "user@example.com")])⟩, rfl, ?_, ?_⟩
  · simp only [previewUrlOf_simulated]
    cases env.getTestMessageUrl _ <;> rfl
  · simp only [previewUrlOf_simulated]
    cases env.getTestMessageUrl _ with
    | error e => simp [Response.field, optChain, jsonObject, lookupField]
    | ok url => cases url <;> simp [Response.field, optChain, jsonObject, lookupField]

/-- C9 (what the code does). While no transport is assigned the handler answers
a valid request with the 500 `Email service not initialized...` and calls no
`sendMail`.  But the start-up routine never selects the live transport: line 49
calls `nodemailer.createTransporter`, a name the module does not export, so the
call throws, the `catch` of line 62 runs and lines 68-95 store the simulation,
whatever the credentials are, also when the factory of the library and the
verification would both succeed.  After start-up every send goes to the
simulation. -/
theorem startUp_never_live :
    (∀ env : MailEnv, sendEmail env MailState.initial.emailTransporter scenarioMail =
      (⟨500, .obj [("error",
          .str "Email service not initialized. Please try again in a moment.")]⟩, [])) ∧
    callNodemailer "createTransporter" (.ok ()) =
      .error "nodemailer.createTransporter is not a function" ∧
    (∀ factory verify : Except String Unit,
      startUp factory verify = ⟨some .simulation, .finished⟩) ∧
    startUp (.ok ()) (.ok ()) = ⟨some .simulation, .finished⟩ ∧
    (∀ env : MailEnv, ∃ mailOptions,
      (sendEmail env (startUp (.ok ()) (.ok ())).emailTransporter scenarioMail).2.head? =
        some (.sendMail .simulation mailOptions)) := by
  have hcall : ∀ factory : Except String Unit,
      callNodemailer "createTransporter" factory =
        .error "nodemailer.createTransporter is not a function" := by
    intro factory
    have hmem : ¬ ("createTransporter" ∈ nodemailerExports) := by decide
    unfold callNodemailer
    rw [if_neg hmem]
    rfl
  have hstart : ∀ factory verify : Except String Unit,
      startUp factory verify = ⟨some .simulation, .finished⟩ := by
    intro factory verify
    unfold startUp initializeEmailTransporter
    rw [hcall factory]
    rfl
  refine ⟨?_, hcall _, hstart, hstart _ _, ?_⟩
  · intro env
    exact sendEmail_of_unassigned env scenarioMail _ _ _ "user@example.com"
      rfl rfl rfl rfl rfl rfl rfl (by decide)
  · intro env
    have hb : buildMailOptions (some (.str "user@example.com")) (some (.str "Notes"))
        (some (.str "Test summary")) = .ok scenarioMailOptions := rfl
    refine ⟨scenarioMailOptions, ?_⟩
    rw [hstart]
    show (sendEmail env (some .simulation) scenarioMail).2.head? = _
    rw [sendEmail_of_options env .simulation scenarioMail _ _ _ "user@example.com"
      scenarioMailOptions rfl rfl rfl rfl rfl rfl rfl (by decide) hb]
    cases transportSendMail env .simulation _ <;> rfl

/-! ## The client form -/

theorem dropWhile_all_iff (p : Char → Bool) (l : List Char) :
    (∀ x ∈ l.dropWhile p, p x = true) ↔ ∀ x ∈ l, p x = true := by
  induction l with
  | nil => simp
  | cons a l ih =>
      by_cases ha : p a = true
      · simp [List.dropWhile_cons, ha, ih]
      · simp [List.dropWhile_cons, ha]

/-- The result of `trim()` is empty exactly on the strings of whitespace. -/
theorem jsTrim_eq_nil_iff (s : List Char) :
    jsTrim s = [] ↔ ∀ c ∈ s, isJsWhitespace c = true := by
  unfold jsTrim
  rw [List.reverse_eq_nil_iff, List.dropWhile_eq_nil_iff]
  simp only [List.mem_reverse]
  exact dropWhile_all_iff isJsWhitespace s

/-- Every event keeps the two flags from being set together. -/
theorem step_flags (st : DemoState) (event : DemoEvent)
    (h : ¬ (st.isEditing = true ∧ st.showEmailForm = true)) :
    ¬ ((st.step event).isEditing = true ∧ (st.step event).showEmailForm = true) := by
  cases event with
  | submit outcome =>
      simp only [DemoState.step, handleSubmit]
      split
      · exact h
      · cases outcome with
        | threw => exact h
        | resolved data =>
            simp only
            split
            · simp
            · exact h
  | doneEditing => simp [DemoState.step, handleDoneEditing]
  | setTranscript value => exact h
  | setPrompt value => exact h
  | setSummary value => exact h
  | setEmail value => exact h
  | setSubject value => exact h

theorem foldl_flags (events : List DemoEvent) : ∀ st : DemoState,
    ¬ (st.isEditing = true ∧ st.showEmailForm = true) →
    ¬ ((events.foldl DemoState.step st).isEditing = true ∧
       (events.foldl DemoState.step st).showEmailForm = true) := by
  induction events with
  | nil => intro st h; exact h
  | cons event rest ih =>
      intro st h
      exact ih (st.step event) (step_flags st event h)

/-- C10. The form is a three-phase machine.  In every state reached from the
initial one by the handlers and the field edits, `isEditing` and `showEmailForm`
are not both set, so the state is composing, reviewing or sharing.  A submit
whose transcript is not blank and whose request returns a non-empty summary
leads to reviewing with that summary stored.  A submit with a blank transcript,
a failed request or an empty summary changes nothing.  `handleDoneEditing`
leads from reviewing to sharing and keeps the summary. -/
theorem demo_three_phases :
    (∀ events : List DemoEvent,
      ¬ ((DemoState.run events).isEditing = true ∧
         (DemoState.run events).showEmailForm = true) ∧
      ∃ phase, (DemoState.run events).phase = some phase) ∧
    (∀ (st : DemoState) (data : JSValue),
      (∃ c ∈ st.transcript.toList, isJsWhitespace c = false) →
      truthy (optChain data "summary") = true →
      (handleSubmit (.resolved data) st).phase = some .reviewing ∧
      (handleSubmit (.resolved data) st).summary = optChain data "summary") ∧
    (∀ (st : DemoState) (outcome : QueryOutcome),
      ((∀ c ∈ st.transcript.toList, isJsWhitespace c = true) ∨
        outcome = .threw ∨
        ∃ data, outcome = .resolved data ∧ truthy (optChain data "summary") = false) →
      handleSubmit outcome st = st) ∧
    (∀ st : DemoState, st.phase = some .reviewing →
      (handleDoneEditing st).phase = some .sharing ∧
      (handleDoneEditing st).summary = st.summary) := by
  refine ⟨?_, ?_, ?_, ?_⟩
  · intro events
    have h := foldl_flags events DemoState.initial (by simp [DemoState.initial])
    refine ⟨h, ?_⟩
    unfold DemoState.run
    revert h
    generalize events.foldl DemoState.step DemoState.initial = st
    intro h
    unfold DemoState.phase
    cases h1 : st.isEditing <;> cases h2 : st.showEmailForm <;> simp_all
  · rintro st data ⟨c, hc, hws⟩ hs
    have hne : ¬ (jsTrim st.transcript.toList).isEmpty = true := by
      intro hj
      have hall := (jsTrim_eq_nil_iff _).mp (List.isEmpty_iff.mp hj) c hc
      rw [hws] at hall
      exact absurd hall (by decide)
    unfold handleSubmit
    rw [if_neg hne]
    simp [hs, DemoState.phase]
  · rintro st outcome (hall | rfl | ⟨data, rfl, hs⟩)
    · have hj : (jsTrim st.transcript.toList).isEmpty = true :=
        List.isEmpty_iff.mpr ((jsTrim_eq_nil_iff _).mpr hall)
      unfold handleSubmit
      rw [if_pos hj]
    · unfold handleSubmit
      split <;> rfl
    · unfold handleSubmit
      split
      · rfl
      · simp [hs]
  · intro st _
    simp [handleDoneEditing, DemoState.phase]

theorem demo_three_phases_witness :
    (DemoState.run
        [.setTranscript "Alice proposed X. Bob agreed.",
         .submit (.resolved (some (.obj [("summary", .str "X was agreed.")]))),
         .doneEditing]).phase = some .sharing ∧
    (handleSubmit (.resolved (some (.obj [("summary", .str "X was agreed.")])))
        (DemoState.run [.setTranscript "Alice proposed X. Bob agreed."])).phase =
      some .reviewing ∧
    handleSubmit .threw (DemoState.run [.setTranscript "Alice proposed X. Bob agreed."]) =
      DemoState.run [.setTranscript "Alice proposed X. Bob agreed."] ∧
    (handleDoneEditing
        (DemoState.run
          [.setTranscript "Alice proposed X. Bob agreed.",
           .submit (.resolved (some (.obj [("summary", .str "X was agreed.")])))])).summary =
      some (.str "X was agreed.") :=
  ⟨by decide,
   (demo_three_phases.2.1 (DemoState.run [.setTranscript "Alice proposed X. Bob agreed."])
      (some (.obj [("summary", .str "X was agreed.")]))
      ⟨'A', by decide, by decide⟩ rfl).1,
   demo_three_phases.2.2.1 (DemoState.run [.setTranscript "Alice proposed X. Bob agreed."])
      .threw (Or.inr (Or.inl rfl)),
   (demo_three_phases.2.2.2
      (DemoState.run
        [.setTranscript "Alice proposed X. Bob agreed.",
         .submit (.resolved (some (.obj [("summary", .str "X was agreed.")])))])
      (by decide)).2⟩

end NoteSummarizer
